import Mathlib

/-!
Verification development for the Pithon evaluation core
(`src/pithon/evaluator/evaluator.py`): a tree-walking interpreter with
lexical environment frames, a tagged runtime value model, classes with
bound methods, and exception-based non-local control flow
(return/break/continue).

The evaluator is embedded shallowly: Python's mutable, shared environment
frames and object attribute maps become an explicit heap (`State`) of
frames and objects addressed by natural numbers, and the host exceptions
(ReturnException/BreakException/ContinueException plus the Python error
kinds TypeError/NameError/AttributeError/IndexError) become an explicit
`Control` sum threaded through every evaluation step.  Recursion is
fuel-indexed.

Only `evaluator.py` is in the repository source; the auxiliary modules it
imports (`envframe.py`, `envvalue.py`, `syntax.py`, `primitive.py`) are
modelled from the specification where noted.
-/

namespace Pithon

/-- Syntax-tree nodes.  Modelled from the spec: `syntax.py` is not in the
repository; node kinds and their fields follow spec section 6 (external
interfaces) and the fields `evaluator.py` actually reads
(`node.value`, `node.elements`, `node.name`, `node.left`, ..., function
definitions carrying name, parameter names, optional variadic name, body). -/
inductive PiStatement where
  | PiNumber (value : Int)
  | PiBool (value : Bool)
  | PiNone
  | PiString (value : String)
  | PiList (elements : List PiStatement)
  | PiTuple (elements : List PiStatement)
  | PiVariable (name : String)
  | PiBinaryOperation (operator : String) (left right : PiStatement)
  | PiAssignment (name : String) (value : PiStatement)
  | PiAttributeAssignment (object : PiStatement) (attr : String) (value : PiStatement)
  | PiAttribute (object : PiStatement) (attr : String)
  | PiIfThenElse (condition : PiStatement) (thenBranch elseBranch : List PiStatement)
  | PiNot (operand : PiStatement)
  | PiAnd (left right : PiStatement)
  | PiOr (left right : PiStatement)
  | PiWhile (condition : PiStatement) (body : List PiStatement)
  | PiFunctionDef (name : String) (argNames : List String) (vararg : Option String)
      (body : List PiStatement)
  | PiClassDef (name : String)
      (methods : List (String × List String × Option String × List PiStatement))
  | PiReturn (value : PiStatement)
  | PiFunctionCall (function : PiStatement) (args : List PiStatement)
  | PiFor (var : String) (iterable : PiStatement) (body : List PiStatement)
  | PiBreak
  | PiContinue
  | PiIn (container : PiStatement) (element : PiStatement)
  | PiSubscript (collection : PiStatement) (index : PiStatement)

/-- A function definition's payload as carried inside closures: name,
positional parameter names, optional variadic parameter name, body. -/
structure FuncDef where
  name : String
  argNames : List String
  vararg : Option String
  body : List PiStatement

/-- Runtime values.  Modelled from the spec: `envvalue.py` is not in the
repository; the variant set follows spec section 3 (Number, Bool, String,
None, List, Tuple, FunctionClosure, MethodClosure, ClassDef, Object).
Numbers are embedded as integers (the claims only exercise integral
scalars).  Mutable entities (environment frames, object instances) live in
the `State` heap and are referenced by address, so that mutation through
one reference is visible through every other, as spec section 5 requires;
closures and class definitions reference their captured frame by address. -/
inductive Value where
  | VNumber (n : Int)
  | VBool (b : Bool)
  | VString (s : String)
  | VNone
  | VList (elems : List Value)
  | VTuple (elems : List Value)
  | VFunctionClosure (funcdef : FuncDef) (closureEnv : Nat)
  | VMethodClosure (funcdef : FuncDef) (closureEnv : Nat) (instance_ : Nat)
  | VClassDef (name : String) (methods : List (String × FuncDef × Nat))
  | VObject (addr : Nat)

/-- Modelled from the spec: an environment frame (`envframe.py` is not in
the repository) holds a mapping from names to values plus an optional
parent-frame reference (spec section 3).  The mapping is an association
list where insertion prepends; lookup takes the first match, which is the
most recent insertion, matching dictionary overwrite semantics. -/
structure Frame where
  vars : List (String × Value)
  parent : Option Nat

/-- A heap-allocated object instance: its class name, its class's method
table (each method a function definition plus its captured frame address),
and its own mutable attribute mapping. -/
structure Obj where
  className : String
  methods : List (String × FuncDef × Nat)
  attrs : List (String × Value)

/-- The mutable heap: all environment frames and all object instances,
addressed by position.  New frames and objects are appended. -/
structure State where
  frames : List Frame
  objects : List Obj

/-- First-match lookup in an association list (dictionary read). -/
def assocLookup {α : Type} : List (String × α) → String → Option α
  | [], _ => none
  | (k, v) :: rest, key => if k == key then some v else assocLookup rest key

/-- Allocate a fresh frame with the given parent; returns its address. -/
def State.newFrame (s : State) (parent : Option Nat) : Nat × State :=
  (s.frames.length, { s with frames := s.frames ++ [⟨[], parent⟩] })

/-- Insertion (`EnvFrame.insert`): write a binding into the given frame (never a
parent), overwriting any existing local binding.  Modelled from spec
section 4.1. -/
def State.insertVar (s : State) (addr : Nat) (name : String) (v : Value) : State :=
  match s.frames.get? addr with
  | some f => { s with frames := s.frames.set addr ⟨(name, v) :: f.vars, f.parent⟩ }
  | none => s

/-- Chain lookup with explicit gas (frames always point to earlier-created
parents, so a chain never exceeds the number of frames). -/
def lookupChain (frames : List Frame) : Nat → Nat → String → Option Value
  | 0, _, _ => none
  | gas + 1, addr, name =>
    match frames.get? addr with
    | none => none
    | some f =>
      match assocLookup f.vars name with
      | some v => some v
      | none =>
        match f.parent with
        | none => none
        | some p => lookupChain frames gas p name

/-- Lookup (`EnvFrame.lookup`): resolve a name in the nearest frame, walking outward
through parents; `none` means an unresolved-name error.  Modelled from spec
sections 3 and 4.1. -/
def State.lookup (s : State) (addr : Nat) (name : String) : Option Value :=
  lookupChain s.frames (s.frames.length + 1) addr name

/-- Read an object from the heap. -/
def State.getObj (s : State) (addr : Nat) : Option Obj :=
  s.objects.get? addr

/-- Allocate a fresh object with empty attributes; returns its address. -/
def State.newObject (s : State) (cname : String)
    (methods : List (String × FuncDef × Nat)) : Nat × State :=
  (s.objects.length, { s with objects := s.objects ++ [⟨cname, methods, []⟩] })

/-- Attribute write (`obj.attributes[attr] = value`): write an attribute of a heap object. -/
def State.setAttr (s : State) (addr : Nat) (name : String) (v : Value) : State :=
  match s.objects.get? addr with
  | some o =>
      { s with objects := s.objects.set addr ⟨o.className, o.methods, (name, v) :: o.attrs⟩ }
  | none => s

/-- Python truthiness of a value's payload (`obj.value` in a boolean
context): false for `False`, `0`, `""`, `None`, `[]`, `()`. -/
def truthy : Value → Bool
  | .VBool b => b
  | .VNumber n => n != 0
  | .VString s => !s.isEmpty
  | .VNone => false
  | .VList es => !es.isEmpty
  | .VTuple es => !es.isEmpty
  | _ => true

/-- The check `_check_valid_piandor_type`: the operand kinds the `not`/`and`/`or`
operators accept (`VBool | VNumber | VString | VNone | VList | VTuple`). -/
def allowedAndOr : Value → Bool
  | .VBool _ => true
  | .VNumber _ => true
  | .VString _ => true
  | .VNone => true
  | .VList _ => true
  | .VTuple _ => true
  | _ => false

/-- Printable kind name of a value, as `type(obj).__name__` yields. -/
def kindName : Value → String
  | .VNumber _ => "VNumber"
  | .VBool _ => "VBool"
  | .VString _ => "VString"
  | .VNone => "VNone"
  | .VList _ => "VList"
  | .VTuple _ => "VTuple"
  | .VFunctionClosure _ _ => "VFunctionClosure"
  | .VMethodClosure _ _ _ => "VMethodClosure"
  | .VClassDef _ _ => "VClassDef"
  | .VObject _ => "VObject"

/-- Structural parameter-list equality of function definitions, used only
inside `valueEq`. -/
def funcDefEq (a b : FuncDef) : Bool :=
  a.name == b.name && a.argNames == b.argNames && a.vararg == b.vararg

mutual

/-- Python `==` on runtime values: dataclass-style field-wise equality of
primitives and sequences; objects compare by heap reference; closures
compare by captured frame and definition header (bodies are compared only
up to the header, which no claim distinguishes). -/
def valueEq : Value → Value → Bool
  | .VNumber a, .VNumber b => a == b
  | .VBool a, .VBool b => a == b
  | .VString a, .VString b => a == b
  | .VNone, .VNone => true
  | .VList a, .VList b => listValueEq a b
  | .VTuple a, .VTuple b => listValueEq a b
  | .VFunctionClosure f e, .VFunctionClosure g e' => funcDefEq f g && e == e'
  | .VMethodClosure f e i, .VMethodClosure g e' i' => funcDefEq f g && e == e' && i == i'
  | .VObject a, .VObject b => a == b
  | _, _ => false

/-- Element-wise sequence equality. -/
def listValueEq : List Value → List Value → Bool
  | [], [] => true
  | x :: xs, y :: ys => valueEq x y && listValueEq xs ys
  | _, _ => false

end

/-- Python `element in seq` on a list/tuple payload: some member equals the
element. -/
def containsVal (xs : List Value) (x : Value) : Bool :=
  xs.any (fun y => valueEq y x)

/-- Whether `needle` matches the front of `hay`, character by character. -/
def matchFront : List Char → List Char → Bool
  | [], _ => true
  | _ :: _, [] => false
  | c :: cs, d :: ds => c == d && matchFront cs ds

/-- Whether `needle` occurs contiguously somewhere in `hay`. -/
def occursIn (needle : List Char) : List Char → Bool
  | [] => matchFront needle []
  | hay@(_ :: rest) => matchFront needle hay || occursIn needle rest

/-- Python `sub in s` on strings: substring containment. -/
def strContains (hay needle : String) : Bool :=
  occursIn needle.data hay.data

/-- Python sequence indexing `xs[i]`: a negative index counts from the end;
`none` is an IndexError (index `>= len` or `< -len`). -/
def pyIndex {α : Type} (xs : List α) (i : Int) : Option α :=
  let j : Int := if i < 0 then (xs.length : Int) + i else i
  if j < 0 then none else xs.get? j.toNat

/-- Python slice `xs[i:]` with a possibly negative start. -/
def pyDropFrom (i : Int) (xs : List Value) : List Value :=
  if i < 0 then xs.drop ((xs.length : Int) + i).toNat else xs.drop i.toNat

/-- Non-local outcomes of an evaluation step: the three control-flow
signals (Python's ReturnException / BreakException / ContinueException in
`evaluator.py`), the ordinary fatal error kinds (Python's NameError,
TypeError, AttributeError, IndexError), and fuel exhaustion of the
embedding. -/
inductive Control where
  | CReturn (v : Value)
  | CBreak
  | CContinue
  | ENameError (name : String)
  | ETypeError (msg : String)
  | EAttributeError (msg : String)
  | EIndexError (msg : String)
  | EFuel

/-- The outcome of one evaluation: a value, or a signal/error. -/
abbrev Res := Except Control Value

/-- The positional-binding loop shared by the three user-call branches of
`_evaluate_function_call`: bind each parameter name to the matching
argument in order (inserting into the call frame as it goes); running out
of arguments raises a TypeError whose message names the missing parameter;
surplus arguments are left for the caller's vararg/arity handling. -/
def bindArgs (msgPre : String) (env : Nat) :
    List String → List Value → State → Except Control Unit × State
  | [], _, s => (.ok (), s)
  | n :: _, [], s => (.error (.ETypeError (msgPre ++ n)), s)
  | n :: ns, a :: rest, s => bindArgs msgPre env ns rest (s.insertVar env n a)

mutual

/-- The dispatcher `evaluate_stmt`: the recursive dispatcher of `evaluator.py`, one match
arm per node kind, in source order.  Fuel-indexed; fuel exhaustion is the
embedding's artifact `EFuel`, never produced by any claim's program at the
fuel used. -/
def evalStmt (fuel : Nat) (node : PiStatement) (env : Nat) (s : State) : Res × State :=
  match fuel with
  | 0 => (.error .EFuel, s)
  | f + 1 =>
    match node with
    | .PiNumber n => (.ok (.VNumber n), s)
    | .PiBool b => (.ok (.VBool b), s)
    | .PiNone => (.ok .VNone, s)
    | .PiString str => (.ok (.VString str), s)
    | .PiList es =>
      match evalElems f es env s with
      | (.ok vs, s1) => (.ok (.VList vs), s1)
      | (.error e, s1) => (.error e, s1)
    | .PiTuple es =>
      match evalElems f es env s with
      | (.ok vs, s1) => (.ok (.VTuple vs), s1)
      | (.error e, s1) => (.error e, s1)
    | .PiVariable name =>
      match s.lookup env name with
      | some v => (.ok v, s)
      | none => (.error (.ENameError name), s)
    | .PiBinaryOperation op l r =>
      evalStmt f (.PiFunctionCall (.PiVariable op) [l, r]) env s
    | .PiAssignment name value =>
      match evalStmt f value env s with
      | (.ok v, s1) => (.ok v, s1.insertVar env name v)
      | (.error e, s1) => (.error e, s1)
    | .PiAttributeAssignment objE attr valE =>
      match evalStmt f objE env s with
      | (.ok (.VObject a), s1) =>
        match evalStmt f valE env s1 with
        | (.ok v, s2) => (.ok v, s2.setAttr a attr v)
        | (.error e, s2) => (.error e, s2)
      | (.ok v, s1) =>
        (.error (.ETypeError
          ("Impossible d assigner un attribut a un objet de type " ++ kindName v)), s1)
      | (.error e, s1) => (.error e, s1)
    | .PiAttribute objE attr =>
      match evalStmt f objE env s with
      | (.ok (.VObject a), s1) =>
        match s1.getObj a with
        | none => (.error (.ETypeError "reference objet invalide"), s1)
        | some o =>
          match assocLookup o.attrs attr with
          | some v => (.ok v, s1)
          | none =>
            match assocLookup o.methods attr with
            | some (fd, ce) => (.ok (.VMethodClosure fd ce a), s1)
            | none =>
              (.error (.EAttributeError
                ("L objet " ++ o.className ++ " n a pas d attribut " ++ attr)), s1)
      | (.ok v, s1) =>
        (.error (.ETypeError
          ("Impossible d acceder a un attribut d un objet de type " ++ kindName v)), s1)
      | (.error e, s1) => (.error e, s1)
    | .PiIfThenElse cond thenB elseB =>
      match evalStmt f cond env s with
      | (.ok (.VBool b), s1) => evalSeqA f (if b then thenB else elseB) env s1 .VNone
      | (.ok _, s1) => (.error (.ETypeError "condition attendue de type VBool"), s1)
      | (.error e, s1) => (.error e, s1)
    | .PiNot operand =>
      match evalStmt f operand env s with
      | (.ok v, s1) =>
        if allowedAndOr v then (.ok (.VBool (!truthy v)), s1)
        else (.error (.ETypeError
          ("Type non supporte pour l operateur and: " ++ kindName v)), s1)
      | (.error e, s1) => (.error e, s1)
    | .PiAnd l r =>
      match evalStmt f l env s with
      | (.ok lv, s1) =>
        if allowedAndOr lv then
          if !truthy lv then (.ok lv, s1)
          else
            match evalStmt f r env s1 with
            | (.ok rv, s2) =>
              if allowedAndOr rv then (.ok rv, s2)
              else (.error (.ETypeError
                ("Type non supporte pour l operateur and: " ++ kindName rv)), s2)
            | (.error e, s2) => (.error e, s2)
        else (.error (.ETypeError
          ("Type non supporte pour l operateur and: " ++ kindName lv)), s1)
      | (.error e, s1) => (.error e, s1)
    | .PiOr l r =>
      match evalStmt f l env s with
      | (.ok lv, s1) =>
        if allowedAndOr lv then
          if truthy lv then (.ok lv, s1)
          else
            match evalStmt f r env s1 with
            | (.ok rv, s2) =>
              if allowedAndOr rv then (.ok rv, s2)
              else (.error (.ETypeError
                ("Type non supporte pour l operateur and: " ++ kindName rv)), s2)
            | (.error e, s2) => (.error e, s2)
        else (.error (.ETypeError
          ("Type non supporte pour l operateur and: " ++ kindName lv)), s1)
      | (.error e, s1) => (.error e, s1)
    | .PiWhile cond body => whileLoop f cond body env s .VNone
    | .PiFunctionDef name argNames vararg body =>
      (.ok .VNone,
        s.insertVar env name (.VFunctionClosure ⟨name, argNames, vararg, body⟩ env))
    | .PiClassDef name methods =>
      let p := s.newFrame (some env)
      let table := methods.foldl
        (fun acc m => (m.1, (⟨m.1, m.2.1, m.2.2.1, m.2.2.2⟩ : FuncDef), p.1) :: acc) []
      (.ok .VNone, p.2.insertVar env name (.VClassDef name table))
    | .PiReturn value =>
      match evalStmt f value env s with
      | (.ok v, s1) => (.error (.CReturn v), s1)
      | (.error e, s1) => (.error e, s1)
    | .PiFunctionCall fn args =>
      match evalStmt f fn env s with
      | (.ok fv, s1) =>
        match evalElems f args env s1 with
        | (.ok argvals, s2) => callValue f fv argvals s2
        | (.error e, s2) => (.error e, s2)
      | (.error e, s1) => (.error e, s1)
    | .PiFor var iterable body =>
      match evalStmt f iterable env s with
      | (.ok (.VList es), s1) => forLoop f var es body env s1 .VNone
      | (.ok (.VTuple es), s1) => forLoop f var es body env s1 .VNone
      | (.ok _, s1) =>
        (.error (.ETypeError "La boucle for attend une liste ou un tuple."), s1)
      | (.error e, s1) => (.error e, s1)
    | .PiBreak => (.error .CBreak, s)
    | .PiContinue => (.error .CContinue, s)
    | .PiIn contE elemE =>
      match evalStmt f contE env s with
      | (.ok c, s1) =>
        match evalStmt f elemE env s1 with
        | (.ok x, s2) =>
          match c with
          | .VList es => (.ok (.VBool (containsVal es x)), s2)
          | .VTuple es => (.ok (.VBool (containsVal es x)), s2)
          | .VString hay =>
            match x with
            | .VString needle => (.ok (.VBool (strContains hay needle)), s2)
            | _ => (.ok (.VBool false), s2)
          | _ =>
            (.error (.ETypeError
              "in n est supporte que pour les listes et chaines."), s2)
        | (.error e, s2) => (.error e, s2)
      | (.error e, s1) => (.error e, s1)
    | .PiSubscript collE idxE =>
      match evalStmt f collE env s with
      | (.ok c, s1) =>
        match evalStmt f idxE env s1 with
        | (.ok ix, s2) =>
          match c with
          | .VList es =>
            match ix with
            | .VNumber i =>
              match pyIndex es i with
              | some v => (.ok v, s2)
              | none => (.error (.EIndexError "Index de liste hors limites"), s2)
            | _ => (.error (.ETypeError "index attendu de type VNumber"), s2)
          | .VTuple es =>
            match ix with
            | .VNumber i =>
              match pyIndex es i with
              | some v => (.ok v, s2)
              | none => (.error (.EIndexError "Index de tuple hors limites"), s2)
            | _ => (.error (.ETypeError "index attendu de type VNumber"), s2)
          | .VString str =>
            match ix with
            | .VNumber i =>
              match pyIndex str.data i with
              | some ch => (.ok (.VString (String.mk [ch])), s2)
              | none => (.error (.EIndexError "Index de chaine hors limites"), s2)
            | _ => (.error (.ETypeError "index attendu de type VNumber"), s2)
          | _ =>
            (.error (.ETypeError
              "L indexation n est supportee que pour les listes, tuples et chaines."), s2)
        | (.error e, s2) => (.error e, s2)
      | (.error e, s1) => (.error e, s1)

termination_by structural fuel

/-- Sequencing (`evaluate` on a statement list): run statements in order, keeping the
last successfully evaluated value (initially None); the first signal or
error aborts the remaining statements. -/
def evalSeqA (fuel : Nat) (stmts : List PiStatement) (env : Nat) (s : State)
    (last : Value) : Res × State :=
  match fuel with
  | 0 => (.error .EFuel, s)
  | f + 1 =>
    match stmts with
    | [] => (.ok last, s)
    | stmt :: rest =>
      match evalStmt f stmt env s with
      | (.ok v, s1) => evalSeqA f rest env s1 v
      | (.error e, s1) => (.error e, s1)

termination_by structural fuel

/-- Left-to-right evaluation of expression lists (list/tuple literals,
call arguments). -/
def evalElems (fuel : Nat) (exprs : List PiStatement) (env : Nat) (s : State) :
    Except Control (List Value) × State :=
  match fuel with
  | 0 => (.error .EFuel, s)
  | f + 1 =>
    match exprs with
    | [] => (.ok [], s)
    | e :: rest =>
      match evalStmt f e env s with
      | (.ok v, s1) =>
        match evalElems f rest env s1 with
        | (.ok vs, s2) => (.ok (v :: vs), s2)
        | (.error er, s2) => (.error er, s2)
      | (.error er, s1) => (.error er, s1)

termination_by structural fuel

/-- The loop `_evaluate_while`: re-check the Bool condition before each iteration;
the body's BreakSignal exits with the last value, ContinueSignal re-checks
the condition; any other signal or error propagates. -/
def whileLoop (fuel : Nat) (cond : PiStatement) (body : List PiStatement) (env : Nat)
    (s : State) (last : Value) : Res × State :=
  match fuel with
  | 0 => (.error .EFuel, s)
  | f + 1 =>
    match evalStmt f cond env s with
    | (.ok (.VBool b), s1) =>
      if b then
        match evalSeqA f body env s1 .VNone with
        | (.ok v, s2) => whileLoop f cond body env s2 v
        | (.error .CBreak, s2) => (.ok last, s2)
        | (.error .CContinue, s2) => whileLoop f cond body env s2 last
        | (.error e, s2) => (.error e, s2)
      else (.ok last, s1)
    | (.ok _, s1) => (.error (.ETypeError "condition attendue de type VBool"), s1)
    | (.error e, s1) => (.error e, s1)

termination_by structural fuel

/-- The iteration of `_evaluate_for`: bind the loop variable directly in the
enclosing frame `env` (no child frame), then run the body with the same
Break/Continue handling as while. -/
def forLoop (fuel : Nat) (var : String) (items : List Value) (body : List PiStatement)
    (env : Nat) (s : State) (last : Value) : Res × State :=
  match fuel with
  | 0 => (.error .EFuel, s)
  | f + 1 =>
    match items with
    | [] => (.ok last, s)
    | item :: rest =>
      match evalSeqA f body env (s.insertVar env var item) .VNone with
      | (.ok v, s2) => forLoop f var rest body env s2 v
      | (.error .CBreak, s2) => (.ok last, s2)
      | (.error .CContinue, s2) => forLoop f var rest body env s2 last
      | (.error e, s2) => (.error e, s2)

termination_by structural fuel

/-- The statement loop of the function/method call branches: run the body
keeping the last value (None if empty); a caught ReturnSignal's value is
the call's result; every other signal or error propagates. -/
def runBody (fuel : Nat) (body : List PiStatement) (env : Nat) (s : State) : Res × State :=
  match fuel with
  | 0 => (.error .EFuel, s)
  | f + 1 =>
    match evalSeqA f body env s .VNone with
    | (.error (.CReturn v), s1) => (.ok v, s1)
    | r => r

termination_by structural fuel

/-- The dispatch of `_evaluate_function_call` after callee and arguments are evaluated:
dispatch on the callee's kind.  The host-primitive branch (`callable`) is
not modelled: the primitive table (`primitive.py`) is outside the
repository source and no claim exercises it. -/
def callValue (fuel : Nat) (fv : Value) (args : List Value) (s : State) : Res × State :=
  match fuel with
  | 0 => (.error .EFuel, s)
  | f + 1 =>
    match fv with
    | .VClassDef cname methods =>
      let p := s.newObject cname methods
      match assocLookup methods "__init__" with
      | none => (.ok (.VObject p.1), p.2)
      | some (fd, cenv) =>
        let q := p.2.newFrame (some cenv)
        let s3 :=
          match fd.argNames with
          | [] => q.2
          | a0 :: _ => q.2.insertVar q.1 a0 (.VObject p.1)
        match bindArgs "Argument manquant pour __init__: " q.1 fd.argNames.tail args s3 with
        | (.error e, s4) => (.error e, s4)
        | (.ok _, s4) =>
          match evalSeqA f fd.body q.1 s4 .VNone with
          | (.error (.CReturn _), s5) => (.ok (.VObject p.1), s5)
          | (.error e, s5) => (.error e, s5)
          | (.ok _, s5) => (.ok (.VObject p.1), s5)
    | .VMethodClosure fd cenv oaddr =>
      let q := s.newFrame (some cenv)
      let s2 :=
        match fd.argNames with
        | [] => q.2
        | a0 :: _ => q.2.insertVar q.1 a0 (.VObject oaddr)
      match bindArgs ("Argument manquant pour la methode " ++ fd.name ++ ": ")
          q.1 fd.argNames.tail args s2 with
      | (.error e, s3) => (.error e, s3)
      | (.ok _, s3) =>
        match fd.vararg with
        | some vn =>
          runBody f fd.body q.1
            (s3.insertVar q.1 vn (.VList (pyDropFrom ((fd.argNames.length : Int) - 1) args)))
        | none =>
          if (args.length : Int) > (fd.argNames.length : Int) - 1 then
            (.error (.ETypeError "Trop d arguments pour la methode."), s3)
          else runBody f fd.body q.1 s3
    | .VFunctionClosure fd cenv =>
      let q := s.newFrame (some cenv)
      match bindArgs ("Argument manquant pour la fonction " ++ fd.name ++ ": ")
          q.1 fd.argNames args q.2 with
      | (.error e, s2) => (.error e, s2)
      | (.ok _, s2) =>
        match fd.vararg with
        | some vn =>
          runBody f fd.body q.1
            (s2.insertVar q.1 vn (.VList (args.drop fd.argNames.length)))
        | none =>
          if args.length > fd.argNames.length then
            (.error (.ETypeError "Trop d arguments pour la fonction."), s2)
          else runBody f fd.body q.1 s2
    | _ =>
      (.error (.ETypeError
        ("Tentative d appel d un objet non-fonction de type " ++ kindName fv)), s)

termination_by structural fuel

end

/-- Top level (`evaluate` on a program, a statement list): last statement's value, None
for an empty program. -/
def evaluate (fuel : Nat) (prog : List PiStatement) (env : Nat) (s : State) : Res × State :=
  evalSeqA fuel prog env s .VNone

/-- Modelled from the spec: `initial_env` (with `get_primitive_dict` from
`primitive.py`, not in the repository) pre-populates the first frame with
the primitive table; the primitives are host callables no claim
exercises, so the initial frame is embedded empty.  Frame 0 is the
top-level frame. -/
def initState : State := ⟨[⟨[], none⟩], []⟩

/-- Whether a value is an object instance (`isinstance(obj, VObject)`). -/
def isVObject : Value → Bool
  | .VObject _ => true
  | _ => false

/-- Whether a value is a number (`isinstance(idx, VNumber)`). -/
def isVNumber : Value → Bool
  | .VNumber _ => true
  | _ => false

/-- Whether a value is a string (`isinstance(element, VString)`). -/
def isVString : Value → Bool
  | .VString _ => true
  | _ => false

/-- The collection kinds `_evaluate_subscript` accepts. -/
def isSubscriptable : Value → Bool
  | .VList _ => true
  | .VTuple _ => true
  | .VString _ => true
  | _ => false

/-- The container kinds `_evaluate_in` accepts. -/
def isInContainer : Value → Bool
  | .VList _ => true
  | .VTuple _ => true
  | .VString _ => true
  | _ => false

/-- Positional binding fails (with a TypeError naming the missing
parameter) exactly when the arguments run out before the parameters. -/
theorem bindArgs_missing (ns : List String) :
    ∀ (args : List Value) (msgPre : String) (env : Nat) (s : State),
      args.length < ns.length →
      ∃ msg s', bindArgs msgPre env ns args s = (.error (.ETypeError msg), s') := by
  induction ns with
  | nil => intro args msgPre env s h; simp at h
  | cons n ns ih =>
    intro args msgPre env s h
    cases args with
    | nil => exact ⟨msgPre ++ n, s, rfl⟩
    | cons a rest =>
      simp only [List.length_cons, Nat.succ_lt_succ_iff] at h
      exact ih rest msgPre env (s.insertVar env n a) h

/-- Positional binding reads only the first `ns.length` arguments: surplus
arguments do not influence it. -/
theorem bindArgs_take (ns : List String) :
    ∀ (args : List Value) (msgPre : String) (env : Nat) (s : State),
      bindArgs msgPre env ns args s = bindArgs msgPre env ns (args.take ns.length) s := by
  induction ns with
  | nil => intro args msgPre env s; rfl
  | cons n ns ih =>
    intro args msgPre env s
    cases args with
    | nil => rfl
    | cons a rest => simpa [bindArgs] using ih rest msgPre env (s.insertVar env n a)

/-- Claim C4: AND with a falsy left operand of an allowed kind returns the
left operand without evaluating the right operand (the right operand is
arbitrary, including one that would error); OR with a truthy left operand
symmetrically returns the left operand; an evaluated operand of any
other kind (left, or the evaluated right) is a type error. -/
theorem C4_short_circuit_and_or :
    (∀ (f : Nat) (l r : PiStatement) (env : Nat) (s : State) (v : Value) (s1 : State),
       evalStmt f l env s = (.ok v, s1) → allowedAndOr v = true → truthy v = false →
       evalStmt (f + 1) (.PiAnd l r) env s = (.ok v, s1)) ∧
    (∀ (f : Nat) (l r : PiStatement) (env : Nat) (s : State) (v : Value) (s1 : State),
       evalStmt f l env s = (.ok v, s1) → allowedAndOr v = true → truthy v = true →
       evalStmt (f + 1) (.PiOr l r) env s = (.ok v, s1)) ∧
    (∀ (f : Nat) (l r : PiStatement) (env : Nat) (s : State) (v : Value) (s1 : State),
       evalStmt f l env s = (.ok v, s1) → allowedAndOr v = false →
       evalStmt (f + 1) (.PiAnd l r) env s =
         (.error (.ETypeError ("Type non supporte pour l operateur and: " ++ kindName v)), s1)) ∧
    (∀ (f : Nat) (l r : PiStatement) (env : Nat) (s : State) (v : Value) (s1 : State)
       (w : Value) (s2 : State),
       evalStmt f l env s = (.ok v, s1) → allowedAndOr v = true → truthy v = true →
       evalStmt f r env s1 = (.ok w, s2) → allowedAndOr w = false →
       evalStmt (f + 1) (.PiAnd l r) env s =
         (.error (.ETypeError ("Type non supporte pour l operateur and: " ++ kindName w)), s2)) := by
  refine ⟨?_, ?_, ?_, ?_⟩
  · intro f l r env s v s1 h ha ht
    simp only [evalStmt]
    rw [h]
    simp [ha, ht]
  · intro f l r env s v s1 h ha ht
    simp only [evalStmt]
    rw [h]
    simp [ha, ht]
  · intro f l r env s v s1 h ha
    simp only [evalStmt]
    rw [h]
    simp [ha]
  · intro f l r env s v s1 w s2 h ha ht hr hw
    simp only [evalStmt]
    rw [h]
    simp only [ha, ht, if_true, Bool.not_true, Bool.false_eq_true, if_false]
    rw [hr]
    simp [hw]

/-- Witness for C4: `AND(False, boom)` where `boom` is an unbound variable
(evaluating it would be a NameError) returns `False` and leaves the state
untouched; symmetrically for `OR(True, boom)`. -/
theorem C4_short_circuit_and_or_witness :
    evalStmt 3 (.PiAnd (.PiBool false) (.PiVariable "boom")) 0 initState
      = (.ok (.VBool false), initState) ∧
    evalStmt 3 (.PiOr (.PiBool true) (.PiVariable "boom")) 0 initState
      = (.ok (.VBool true), initState) :=
  ⟨C4_short_circuit_and_or.1 2 (.PiBool false) (.PiVariable "boom") 0 initState
      (.VBool false) initState rfl rfl rfl,
   C4_short_circuit_and_or.2.1 2 (.PiBool true) (.PiVariable "boom") 0 initState
      (.VBool true) initState rfl rfl rfl⟩

/-- Claim C10: a break or continue evaluated outside any loop, and a
return outside any function body, propagate uncaught out of the top-level
`evaluate` entry point as the corresponding signal (a `Control`
constructor distinct from every ordinary error kind) — neither silently
ignored nor converted; this holds also when the stray signal is nested in
a non-loop construct (an `if`) or when a return unwinds a top-level loop. -/
theorem C10_stray_signals_escape_evaluate :
    (evaluate 20 [.PiBreak] 0 initState).1 = .error .CBreak ∧
    (evaluate 20 [.PiContinue] 0 initState).1 = .error .CContinue ∧
    (evaluate 20 [.PiReturn (.PiNumber 7)] 0 initState).1 = .error (.CReturn (.VNumber 7)) ∧
    (evaluate 20 [.PiIfThenElse (.PiBool true) [.PiBreak] []] 0 initState).1
      = .error .CBreak ∧
    (evaluate 20 [.PiWhile (.PiBool true) [.PiReturn (.PiNumber 7)]] 0 initState).1
      = .error (.CReturn (.VNumber 7)) ∧
    (evaluate 20 [.PiBreak, .PiAssignment "x" (.PiNumber 1)] 0 initState).1
      = .error .CBreak :=
  ⟨rfl, rfl, rfl, rfl, rfl, rfl⟩

/-- A small concrete heap for exercising attribute access: one object of
class `C` with method table `m` and own attribute `a = 1`. -/
def witObj : Obj := ⟨"C", [("m", ⟨"m", ["self"], none, []⟩, 0)], [("a", .VNumber 1)]⟩

/-- A state whose top frame binds `o` to the object above. -/
def witState : State := ⟨[⟨[("o", .VObject 0)], none⟩], [witObj]⟩

/-- Claim C6: attribute access on a non-Object is a type error; on an
Object, the instance's own attribute mapping is checked first and wins
even when a class method of the same name exists; otherwise a method-table
hit returns a method closure freshly constructed from the class's method
and that instance, with the state (hence the object and its class) left
exactly as it was — nothing is cached; otherwise an attribute error
naming the class is raised. -/
theorem C6_attribute_resolution :
    (∀ (f : Nat) (objE : PiStatement) (attr : String) (env : Nat) (s : State)
       (v : Value) (s1 : State),
       evalStmt f objE env s = (.ok v, s1) → isVObject v = false →
       evalStmt (f + 1) (.PiAttribute objE attr) env s =
         (.error (.ETypeError
           ("Impossible d acceder a un attribut d un objet de type " ++ kindName v)), s1)) ∧
    (∀ (f : Nat) (objE : PiStatement) (attr : String) (env : Nat) (s : State)
       (a : Nat) (o : Obj) (v : Value) (s1 : State),
       evalStmt f objE env s = (.ok (.VObject a), s1) → s1.getObj a = some o →
       assocLookup o.attrs attr = some v →
       evalStmt (f + 1) (.PiAttribute objE attr) env s = (.ok v, s1)) ∧
    (∀ (f : Nat) (objE : PiStatement) (attr : String) (env : Nat) (s : State)
       (a : Nat) (o : Obj) (fd : FuncDef) (ce : Nat) (s1 : State),
       evalStmt f objE env s = (.ok (.VObject a), s1) → s1.getObj a = some o →
       assocLookup o.attrs attr = none → assocLookup o.methods attr = some (fd, ce) →
       evalStmt (f + 1) (.PiAttribute objE attr) env s = (.ok (.VMethodClosure fd ce a), s1)) ∧
    (∀ (f : Nat) (objE : PiStatement) (attr : String) (env : Nat) (s : State)
       (a : Nat) (o : Obj) (s1 : State),
       evalStmt f objE env s = (.ok (.VObject a), s1) → s1.getObj a = some o →
       assocLookup o.attrs attr = none → assocLookup o.methods attr = none →
       evalStmt (f + 1) (.PiAttribute objE attr) env s =
         (.error (.EAttributeError
           ("L objet " ++ o.className ++ " n a pas d attribut " ++ attr)), s1)) := by
  refine ⟨?_, ?_, ?_, ?_⟩
  · intro f objE attr env s v s1 h hv
    cases v
    all_goals try simp [isVObject] at hv
    all_goals (simp only [evalStmt]; rw [h])
  · intro f objE attr env s a o v s1 h ho hattr
    simp only [evalStmt]
    rw [h]
    simp [ho, hattr]
  · intro f objE attr env s a o fd ce s1 h ho hattr hmeth
    simp only [evalStmt]
    rw [h]
    simp [ho, hattr, hmeth]
  · intro f objE attr env s a o s1 h ho hattr hmeth
    simp only [evalStmt]
    rw [h]
    simp [ho, hattr, hmeth]

/-- Witness for C6: on a heap with one object of class `C` holding own
attribute `a` and class method `m`, `o.a` yields the instance attribute,
`o.m` yields a bound method closure leaving the state unchanged, `o.zz`
is an attribute error naming `C`, and attribute access on a number is a
type error. -/
theorem C6_attribute_resolution_witness :
    evalStmt 3 (.PiAttribute (.PiVariable "o") "a") 0 witState = (.ok (.VNumber 1), witState) ∧
    evalStmt 3 (.PiAttribute (.PiVariable "o") "m") 0 witState
      = (.ok (.VMethodClosure ⟨"m", ["self"], none, []⟩ 0 0), witState) ∧
    evalStmt 3 (.PiAttribute (.PiVariable "o") "zz") 0 witState
      = (.error (.EAttributeError ("L objet " ++ "C" ++ " n a pas d attribut " ++ "zz")), witState) ∧
    evalStmt 3 (.PiAttribute (.PiNumber 4) "a") 0 witState
      = (.error (.ETypeError
          ("Impossible d acceder a un attribut d un objet de type " ++ kindName (.VNumber 4))),
         witState) :=
  ⟨C6_attribute_resolution.2.1 2 (.PiVariable "o") "a" 0 witState 0 witObj (.VNumber 1)
     witState rfl rfl rfl,
   C6_attribute_resolution.2.2.1 2 (.PiVariable "o") "m" 0 witState 0 witObj
     ⟨"m", ["self"], none, []⟩ 0 witState rfl rfl rfl rfl,
   C6_attribute_resolution.2.2.2 2 (.PiVariable "o") "zz" 0 witState 0 witObj
     witState rfl rfl rfl rfl,
   C6_attribute_resolution.1 2 (.PiNumber 4) "a" 0 witState (.VNumber 4) witState rfl rfl⟩

/-- Claim C7: subscripting requires a List, Tuple, or String collection
and a Number index (type error otherwise, for any evaluated collection or
index of the wrong kind); a nonnegative in-range index on a list returns
the corresponding element; an index at or past the length is an
index-out-of-range error; concretely `[10,20,30][2]` yields `30`,
`[10,20,30][3]` fails with the index error, and `"abc"[1]` yields the
one-character string `"b"`. -/
theorem C7_subscript_kinds_and_bounds :
    (∀ (f : Nat) (collE idxE : PiStatement) (env : Nat) (s : State)
       (c : Value) (s1 : State) (ix : Value) (s2 : State),
       evalStmt f collE env s = (.ok c, s1) → isSubscriptable c = false →
       evalStmt f idxE env s1 = (.ok ix, s2) →
       evalStmt (f + 1) (.PiSubscript collE idxE) env s =
         (.error (.ETypeError
           "L indexation n est supportee que pour les listes, tuples et chaines."), s2)) ∧
    (∀ (f : Nat) (collE idxE : PiStatement) (env : Nat) (s : State)
       (c : Value) (s1 : State) (ix : Value) (s2 : State),
       evalStmt f collE env s = (.ok c, s1) → isSubscriptable c = true →
       evalStmt f idxE env s1 = (.ok ix, s2) → isVNumber ix = false →
       evalStmt (f + 1) (.PiSubscript collE idxE) env s =
         (.error (.ETypeError "index attendu de type VNumber"), s2)) ∧
    (∀ (f : Nat) (collE idxE : PiStatement) (env : Nat) (s : State)
       (es : List Value) (s1 : State) (i : Int) (s2 : State) (v : Value),
       evalStmt f collE env s = (.ok (.VList es), s1) →
       evalStmt f idxE env s1 = (.ok (.VNumber i), s2) →
       0 ≤ i → es.get? i.toNat = some v →
       evalStmt (f + 1) (.PiSubscript collE idxE) env s = (.ok v, s2)) ∧
    (∀ (f : Nat) (collE idxE : PiStatement) (env : Nat) (s : State)
       (es : List Value) (s1 : State) (i : Int) (s2 : State),
       evalStmt f collE env s = (.ok (.VList es), s1) →
       evalStmt f idxE env s1 = (.ok (.VNumber i), s2) →
       (es.length : Int) ≤ i →
       evalStmt (f + 1) (.PiSubscript collE idxE) env s =
         (.error (.EIndexError "Index de liste hors limites"), s2)) ∧
    (evalStmt 9 (.PiSubscript (.PiList [.PiNumber 10, .PiNumber 20, .PiNumber 30])
        (.PiNumber 2)) 0 initState).1 = .ok (.VNumber 30) ∧
    (evalStmt 9 (.PiSubscript (.PiList [.PiNumber 10, .PiNumber 20, .PiNumber 30])
        (.PiNumber 3)) 0 initState).1
      = .error (.EIndexError "Index de liste hors limites") ∧
    (evalStmt 9 (.PiSubscript (.PiString "abc") (.PiNumber 1)) 0 initState).1
      = .ok (.VString "b") := by
  refine ⟨?_, ?_, ?_, ?_, rfl, rfl, rfl⟩
  · intro f collE idxE env s c s1 ix s2 h hc hidx
    cases c
    all_goals try simp [isSubscriptable] at hc
    all_goals (simp only [evalStmt]; rw [h]; simp [hidx])
  · intro f collE idxE env s c s1 ix s2 h hc hidx hnum
    cases c
    all_goals try simp [isSubscriptable] at hc
    all_goals cases ix
    all_goals try simp [isVNumber] at hnum
    all_goals (simp only [evalStmt]; rw [h]; simp [hidx])
  · intro f collE idxE env s es s1 i s2 v h hidx h0 hget
    rw [List.get?_eq_getElem?] at hget
    have hpy : pyIndex es i = some v := by
      simp [pyIndex, show ¬ i < 0 by omega, hget]
    simp only [evalStmt]
    rw [h]
    simp [hidx, hpy]
  · intro f collE idxE env s es s1 i s2 h hidx hlen
    have hnone : es[i.toNat]? = (none : Option Value) := List.getElem?_eq_none (by omega)
    have hpy : pyIndex es i = (none : Option Value) := by
      simp [pyIndex, show ¬ i < 0 by omega, hnone]
    simp only [evalStmt]
    rw [h]
    simp [hidx, hpy]

/-- Witness for C7: discharging the general parts at `[10,20,30]`: a
string collection with a string index is a type error, a number collection
is a type error, `[10,20,30][1]` is `20`, and `[10,20,30][5]` is the index
error. -/
theorem C7_subscript_kinds_and_bounds_witness :
    evalStmt 9 (.PiSubscript (.PiNumber 1) (.PiNumber 0)) 0 initState
      = (.error (.ETypeError
          "L indexation n est supportee que pour les listes, tuples et chaines."), initState) ∧
    evalStmt 9 (.PiSubscript (.PiString "abc") (.PiString "x")) 0 initState
      = (.error (.ETypeError "index attendu de type VNumber"), initState) ∧
    evalStmt 9 (.PiSubscript (.PiList [.PiNumber 10, .PiNumber 20, .PiNumber 30])
        (.PiNumber 1)) 0 initState = (.ok (.VNumber 20), initState) ∧
    evalStmt 9 (.PiSubscript (.PiList [.PiNumber 10, .PiNumber 20, .PiNumber 30])
        (.PiNumber 5)) 0 initState
      = (.error (.EIndexError "Index de liste hors limites"), initState) :=
  ⟨C7_subscript_kinds_and_bounds.1 8 (.PiNumber 1) (.PiNumber 0) 0 initState
      (.VNumber 1) initState (.VNumber 0) initState rfl rfl rfl,
   C7_subscript_kinds_and_bounds.2.1 8 (.PiString "abc") (.PiString "x") 0 initState
      (.VString "abc") initState (.VString "x") initState rfl rfl rfl rfl,
   C7_subscript_kinds_and_bounds.2.2.1 8 (.PiList [.PiNumber 10, .PiNumber 20, .PiNumber 30])
      (.PiNumber 1) 0 initState [.VNumber 10, .VNumber 20, .VNumber 30] initState 1 initState
      (.VNumber 20) rfl rfl (by decide) rfl,
   C7_subscript_kinds_and_bounds.2.2.2.1 8
      (.PiList [.PiNumber 10, .PiNumber 20, .PiNumber 30]) (.PiNumber 5) 0 initState
      [.VNumber 10, .VNumber 20, .VNumber 30] initState 5 initState rfl rfl (by decide)⟩

/-- Claim C9: a negative Number index with `-n <= i < 0` on a List (or
String) of length `n` wraps around to position `n + i` instead of failing;
only `i >= n` or `i < -n` produce the index-out-of-range error; concretely
`[10,20,30][-1]` is `30`, `[10,20,30][-3]` is `10`, `[10,20,30][-4]` is
the index error, and `"abc"[-1]` is `"c"`. -/
theorem C9_negative_index_wraparound :
    (∀ (f : Nat) (collE idxE : PiStatement) (env : Nat) (s : State)
       (es : List Value) (s1 : State) (i : Int) (s2 : State) (v : Value),
       evalStmt f collE env s = (.ok (.VList es), s1) →
       evalStmt f idxE env s1 = (.ok (.VNumber i), s2) →
       -(es.length : Int) ≤ i → i < 0 →
       es.get? ((es.length : Int) + i).toNat = some v →
       evalStmt (f + 1) (.PiSubscript collE idxE) env s = (.ok v, s2)) ∧
    (∀ (f : Nat) (collE idxE : PiStatement) (env : Nat) (s : State)
       (es : List Value) (s1 : State) (i : Int) (s2 : State),
       evalStmt f collE env s = (.ok (.VList es), s1) →
       evalStmt f idxE env s1 = (.ok (.VNumber i), s2) →
       i < -(es.length : Int) →
       evalStmt (f + 1) (.PiSubscript collE idxE) env s =
         (.error (.EIndexError "Index de liste hors limites"), s2)) ∧
    (evalStmt 9 (.PiSubscript (.PiList [.PiNumber 10, .PiNumber 20, .PiNumber 30])
        (.PiNumber (-1))) 0 initState).1 = .ok (.VNumber 30) ∧
    (evalStmt 9 (.PiSubscript (.PiList [.PiNumber 10, .PiNumber 20, .PiNumber 30])
        (.PiNumber (-3))) 0 initState).1 = .ok (.VNumber 10) ∧
    (evalStmt 9 (.PiSubscript (.PiList [.PiNumber 10, .PiNumber 20, .PiNumber 30])
        (.PiNumber (-4))) 0 initState).1
      = .error (.EIndexError "Index de liste hors limites") ∧
    (evalStmt 9 (.PiSubscript (.PiString "abc") (.PiNumber (-1))) 0 initState).1
      = .ok (.VString "c") := by
  refine ⟨?_, ?_, rfl, rfl, rfl, rfl⟩
  · intro f collE idxE env s es s1 i s2 v h hidx hlb hneg hget
    rw [List.get?_eq_getElem?] at hget
    have hpy : pyIndex es i = some v := by
      simp [pyIndex, hneg, show ¬ (es.length : Int) + i < 0 by omega, hget]
    simp only [evalStmt]
    rw [h]
    simp [hidx, hpy]
  · intro f collE idxE env s es s1 i s2 h hidx hlt
    have hpy : pyIndex es i = (none : Option Value) := by
      simp [pyIndex, show i < 0 by omega, show (es.length : Int) + i < 0 by omega]
    simp only [evalStmt]
    rw [h]
    simp [hidx, hpy]

/-- Witness for C9: the general parts discharged at `[10,20,30]` with
indices `-2` (wraps to `20`) and `-7` (index error). -/
theorem C9_negative_index_wraparound_witness :
    evalStmt 9 (.PiSubscript (.PiList [.PiNumber 10, .PiNumber 20, .PiNumber 30])
        (.PiNumber (-2))) 0 initState = (.ok (.VNumber 20), initState) ∧
    evalStmt 9 (.PiSubscript (.PiList [.PiNumber 10, .PiNumber 20, .PiNumber 30])
        (.PiNumber (-7))) 0 initState
      = (.error (.EIndexError "Index de liste hors limites"), initState) :=
  ⟨C9_negative_index_wraparound.1 8 (.PiList [.PiNumber 10, .PiNumber 20, .PiNumber 30])
      (.PiNumber (-2)) 0 initState [.VNumber 10, .VNumber 20, .VNumber 30] initState (-2)
      initState (.VNumber 20) rfl rfl (by decide) (by decide) rfl,
   C9_negative_index_wraparound.2.1 8 (.PiList [.PiNumber 10, .PiNumber 20, .PiNumber 30])
      (.PiNumber (-7)) 0 initState [.VNumber 10, .VNumber 20, .VNumber 30] initState (-7)
      initState rfl rfl (by decide)⟩

/-- Claim C8: a membership test whose right side evaluates to a List or
Tuple yields a Bool stating whether some element equals the left value; a
String right side yields substring containment when the left value is a
String and `False` (never an error) for a left value of any other kind;
the test raises a type error exactly when the right side is none of List,
Tuple, String (given both operands evaluate). -/
theorem C8_membership_test :
    (∀ (f : Nat) (contE elemE : PiStatement) (env : Nat) (s : State)
       (es : List Value) (s1 : State) (x : Value) (s2 : State),
       evalStmt f contE env s = (.ok (.VList es), s1) →
       evalStmt f elemE env s1 = (.ok x, s2) →
       evalStmt (f + 1) (.PiIn contE elemE) env s = (.ok (.VBool (containsVal es x)), s2)) ∧
    (∀ (f : Nat) (contE elemE : PiStatement) (env : Nat) (s : State)
       (es : List Value) (s1 : State) (x : Value) (s2 : State),
       evalStmt f contE env s = (.ok (.VTuple es), s1) →
       evalStmt f elemE env s1 = (.ok x, s2) →
       evalStmt (f + 1) (.PiIn contE elemE) env s = (.ok (.VBool (containsVal es x)), s2)) ∧
    (∀ (f : Nat) (contE elemE : PiStatement) (env : Nat) (s : State)
       (hay : String) (s1 : State) (needle : String) (s2 : State),
       evalStmt f contE env s = (.ok (.VString hay), s1) →
       evalStmt f elemE env s1 = (.ok (.VString needle), s2) →
       evalStmt (f + 1) (.PiIn contE elemE) env s
         = (.ok (.VBool (strContains hay needle)), s2)) ∧
    (∀ (f : Nat) (contE elemE : PiStatement) (env : Nat) (s : State)
       (hay : String) (s1 : State) (x : Value) (s2 : State),
       evalStmt f contE env s = (.ok (.VString hay), s1) →
       evalStmt f elemE env s1 = (.ok x, s2) → isVString x = false →
       evalStmt (f + 1) (.PiIn contE elemE) env s = (.ok (.VBool false), s2)) ∧
    (∀ (f : Nat) (contE elemE : PiStatement) (env : Nat) (s : State)
       (c : Value) (s1 : State) (x : Value) (s2 : State),
       evalStmt f contE env s = (.ok c, s1) → isInContainer c = false →
       evalStmt f elemE env s1 = (.ok x, s2) →
       evalStmt (f + 1) (.PiIn contE elemE) env s =
         (.error (.ETypeError "in n est supporte que pour les listes et chaines."), s2)) := by
  refine ⟨?_, ?_, ?_, ?_, ?_⟩
  · intro f contE elemE env s es s1 x s2 h hx
    simp only [evalStmt]
    rw [h]
    simp [hx]
  · intro f contE elemE env s es s1 x s2 h hx
    simp only [evalStmt]
    rw [h]
    simp [hx]
  · intro f contE elemE env s hay s1 needle s2 h hx
    simp only [evalStmt]
    rw [h]
    simp [hx]
  · intro f contE elemE env s hay s1 x s2 h hx hs
    cases x
    all_goals try simp [isVString] at hs
    all_goals (simp only [evalStmt]; rw [h]; simp [hx])
  · intro f contE elemE env s c s1 x s2 h hc hx
    cases c
    all_goals try simp [isInContainer] at hc
    all_goals (simp only [evalStmt]; rw [h]; simp [hx])

/-- Witness for C8: `"ab" in "xaby"` is `True` (substring containment),
`2 in [1,2]` is `True`, `5 in "abc"` is `False` (not an error), and
`1 in 2` is a type error. -/
theorem C8_membership_test_witness :
    evalStmt 9 (.PiIn (.PiString "xaby") (.PiString "ab")) 0 initState
      = (.ok (.VBool true), initState) ∧
    evalStmt 9 (.PiIn (.PiList [.PiNumber 1, .PiNumber 2]) (.PiNumber 2)) 0 initState
      = (.ok (.VBool true), initState) ∧
    evalStmt 9 (.PiIn (.PiString "abc") (.PiNumber 5)) 0 initState
      = (.ok (.VBool false), initState) ∧
    evalStmt 9 (.PiIn (.PiNumber 2) (.PiNumber 1)) 0 initState
      = (.error (.ETypeError "in n est supporte que pour les listes et chaines."), initState) := by
  refine ⟨?_, ?_, ?_, ?_⟩
  · have h := C8_membership_test.2.2.1 8 (.PiString "xaby") (.PiString "ab") 0 initState
      "xaby" initState "ab" initState rfl rfl
    rw [show strContains "xaby" "ab" = true from rfl] at h
    exact h
  · have h := C8_membership_test.1 8 (.PiList [.PiNumber 1, .PiNumber 2]) (.PiNumber 2) 0
      initState [.VNumber 1, .VNumber 2] initState (.VNumber 2) initState rfl rfl
    rw [show containsVal [Value.VNumber 1, Value.VNumber 2] (Value.VNumber 2) = true from rfl] at h
    exact h
  · exact C8_membership_test.2.2.2.1 8 (.PiString "abc") (.PiNumber 5) 0 initState
      "abc" initState (.VNumber 5) initState rfl rfl rfl
  · exact C8_membership_test.2.2.2.2 8 (.PiNumber 2) (.PiNumber 1) 0 initState
      (.VNumber 2) initState (.VNumber 1) initState rfl rfl rfl

/-- The spec's for-loop scope-leakage program: `for x in [1,2,3]: y = x`. -/
def forScopeProgram : List PiStatement :=
  [.PiFor "x" (.PiList [.PiNumber 1, .PiNumber 2, .PiNumber 3])
    [.PiAssignment "y" (.PiVariable "x")]]

/-- Claim C2: the for-loop binds its loop variable directly in the
enclosing frame and runs its body there (no child frame is created, and
none survives: the frame heap still holds exactly the one top-level frame
afterwards), so after `for x in [1,2,3]: y = x` runs in frame F, both the
loop variable `x` and the body-assigned `y` remain bound in F with value
`3`, and the loop's value is the last body value `3`. -/
theorem C2_for_loop_scope_leakage :
    (evaluate 30 forScopeProgram 0 initState).1 = .ok (.VNumber 3) ∧
    (evaluate 30 forScopeProgram 0 initState).2.lookup 0 "x" = some (.VNumber 3) ∧
    (evaluate 30 forScopeProgram 0 initState).2.lookup 0 "y" = some (.VNumber 3) ∧
    (evaluate 30 forScopeProgram 0 initState).2.frames.length = 1 :=
  ⟨rfl, rfl, rfl, rfl⟩

/-- The spec's construction scenario: class `C` with
`__init__(self, v): self.val = v; return 99`, then the call `C(7)`.
The explicit `return 99` exercises the discarded ReturnSignal. -/
def constructionProgram : List PiStatement :=
  [.PiClassDef "C" [("__init__", ["self", "v"], none,
      [.PiAttributeAssignment (.PiVariable "self") "val" (.PiVariable "v"),
       .PiReturn (.PiNumber 99)])],
   .PiFunctionCall (.PiVariable "C") [.PiNumber 7]]

/-- Claim C5: `C(7)` with `__init__(self, v): self.val = v` yields the
newly created Object (heap address 0) of class `C` whose attribute `val`
is `7`; the ReturnSignal raised by `__init__`'s `return 99` is discarded
and does not change the call's result. -/
theorem C5_construction_scenario :
    (evaluate 40 constructionProgram 0 initState).1 = .ok (.VObject 0) ∧
    ((evaluate 40 constructionProgram 0 initState).2.getObj 0).map
        (fun o => assocLookup o.attrs "val") = some (some (.VNumber 7)) ∧
    ((evaluate 40 constructionProgram 0 initState).2.getObj 0).map Obj.className
      = some "C" :=
  ⟨rfl, rfl, rfl⟩

/-- A function body with a return nested inside an `if` inside a `while`,
followed by statements that must be skipped. -/
def nestedReturnBody : List PiStatement :=
  [.PiWhile (.PiBool true)
     [.PiIfThenElse (.PiBool true)
        [.PiReturn (.PiNumber 5), .PiAssignment "dead" (.PiNumber 0)] [],
      .PiAssignment "dead2" (.PiNumber 0)],
   .PiAssignment "dead3" (.PiNumber 0)]

/-- The same body wrapped as a program: define `g` and call it. -/
def nestedReturnProgram : List PiStatement :=
  [.PiFunctionDef "g" [] none nestedReturnBody,
   .PiFunctionCall (.PiVariable "g") []]

/-- Claim C3: a ReturnSignal raised anywhere in a call's body terminates
the call immediately with the returned value: the statement sequence
drops all remaining statements on a ReturnSignal, `if` and `while`
propagate a body ReturnSignal unchanged (while catches only
Break/Continue), and the call protocol (for plain closures and bound
methods alike) turns the caught ReturnSignal into the call's result; a
body that finishes without a return yields its last statement's value,
and an empty body yields None; end to end, calling `g` whose
`while`/`if`-nested body returns 5 yields 5, skipping every remaining
statement of every enclosing construct. -/
theorem C3_return_unwinds_nested_constructs :
    (∀ (f : Nat) (stmt : PiStatement) (rest : List PiStatement) (env : Nat)
       (s : State) (last0 : Value) (v : Value) (s1 : State),
       evalStmt f stmt env s = (.error (.CReturn v), s1) →
       evalSeqA (f + 1) (stmt :: rest) env s last0 = (.error (.CReturn v), s1)) ∧
    (∀ (f : Nat) (cond : PiStatement) (thenB elseB : List PiStatement) (env : Nat)
       (s s1 : State) (v : Value) (s2 : State),
       evalStmt f cond env s = (.ok (.VBool true), s1) →
       evalSeqA f thenB env s1 .VNone = (.error (.CReturn v), s2) →
       evalStmt (f + 1) (.PiIfThenElse cond thenB elseB) env s
         = (.error (.CReturn v), s2)) ∧
    (∀ (f : Nat) (cond : PiStatement) (body : List PiStatement) (env : Nat)
       (s : State) (last : Value) (s1 : State) (v : Value) (s2 : State),
       evalStmt f cond env s = (.ok (.VBool true), s1) →
       evalSeqA f body env s1 .VNone = (.error (.CReturn v), s2) →
       whileLoop (f + 1) cond body env s last = (.error (.CReturn v), s2)) ∧
    (∀ (f : Nat) (nm : String) (bd : List PiStatement) (cenv : Nat) (s : State)
       (v : Value) (s2 : State),
       evalSeqA f bd s.frames.length
           { s with frames := s.frames ++ [⟨[], some cenv⟩] } .VNone
         = (.error (.CReturn v), s2) →
       callValue (f + 2) (.VFunctionClosure ⟨nm, [], none, bd⟩ cenv) [] s = (.ok v, s2)) ∧
    (∀ (f : Nat) (nm a0 : String) (bd : List PiStatement) (cenv oaddr : Nat) (s : State)
       (v : Value) (s2 : State),
       evalSeqA f bd s.frames.length
           (State.insertVar { s with frames := s.frames ++ [⟨[], some cenv⟩] }
             s.frames.length a0 (.VObject oaddr)) .VNone
         = (.error (.CReturn v), s2) →
       callValue (f + 2) (.VMethodClosure ⟨nm, [a0], none, bd⟩ cenv oaddr) [] s
         = (.ok v, s2)) ∧
    (∀ (f : Nat) (nm : String) (bd : List PiStatement) (cenv : Nat) (s : State)
       (w : Value) (s2 : State),
       evalSeqA f bd s.frames.length
           { s with frames := s.frames ++ [⟨[], some cenv⟩] } .VNone = (.ok w, s2) →
       callValue (f + 2) (.VFunctionClosure ⟨nm, [], none, bd⟩ cenv) [] s = (.ok w, s2)) ∧
    (∀ (f : Nat) (nm : String) (cenv : Nat) (s : State),
       callValue (f + 3) (.VFunctionClosure ⟨nm, [], none, []⟩ cenv) [] s
         = (.ok .VNone, { s with frames := s.frames ++ [⟨[], some cenv⟩] })) ∧
    (evaluate 40 nestedReturnProgram 0 initState).1 = .ok (.VNumber 5) := by
  refine ⟨?_, ?_, ?_, ?_, ?_, ?_, ?_, rfl⟩
  · intro f stmt rest env s last0 v s1 h
    simp only [evalSeqA]
    rw [h]
  · intro f cond thenB elseB env s s1 v s2 hc hb
    simp only [evalStmt]
    rw [hc]
    simp [hb]
  · intro f cond body env s last s1 v s2 hc hb
    simp only [whileLoop]
    rw [hc]
    simp [hb]
  · intro f nm bd cenv s v s2 hb
    simp only [callValue, runBody, bindArgs, State.newFrame]
    rw [hb]
    simp
  · intro f nm a0 bd cenv oaddr s v s2 hb
    simp only [callValue, runBody, bindArgs, State.newFrame]
    rw [hb]
    simp
  · intro f nm bd cenv s w s2 hb
    simp only [callValue, runBody, bindArgs, State.newFrame]
    rw [hb]
    simp
  · intro f nm cenv s
    simp [callValue, runBody, bindArgs, State.newFrame, evalSeqA]

/-- Witness for C3: the general parts applied to the nested-return body:
the call to a closure over that body returns 5 with the expected final
heap, the while/if propagate the concrete ReturnSignal, and the sequence
drops the statements after a return. -/
theorem C3_return_unwinds_nested_constructs_witness :
    callValue 32 (.VFunctionClosure ⟨"g", [], none, nestedReturnBody⟩ 0) [] initState
      = (.ok (.VNumber 5), ⟨[⟨[], none⟩, ⟨[], some 0⟩], []⟩) ∧
    evalSeqA 31 [.PiReturn (.PiNumber 5), .PiAssignment "dead" (.PiNumber 0)] 0 initState
        .VNone = (.error (.CReturn (.VNumber 5)), initState) ∧
    evalStmt 31 (.PiIfThenElse (.PiBool true)
        [.PiReturn (.PiNumber 5), .PiAssignment "dead" (.PiNumber 0)] []) 0 initState
      = (.error (.CReturn (.VNumber 5)), initState) ∧
    whileLoop 31 (.PiBool true)
        [.PiIfThenElse (.PiBool true)
           [.PiReturn (.PiNumber 5), .PiAssignment "dead" (.PiNumber 0)] [],
         .PiAssignment "dead2" (.PiNumber 0)] 0 initState .VNone
      = (.error (.CReturn (.VNumber 5)), initState) :=
  ⟨C3_return_unwinds_nested_constructs.2.2.2.1 30 "g" nestedReturnBody 0 initState
     (.VNumber 5) ⟨[⟨[], none⟩, ⟨[], some 0⟩], []⟩ rfl,
   C3_return_unwinds_nested_constructs.1 30 (.PiReturn (.PiNumber 5))
     [.PiAssignment "dead" (.PiNumber 0)] 0 initState .VNone (.VNumber 5) initState rfl,
   C3_return_unwinds_nested_constructs.2.1 30 (.PiBool true)
     [.PiReturn (.PiNumber 5), .PiAssignment "dead" (.PiNumber 0)] [] 0 initState initState
     (.VNumber 5) initState rfl rfl,
   C3_return_unwinds_nested_constructs.2.2.1 30 (.PiBool true)
     [.PiIfThenElse (.PiBool true)
        [.PiReturn (.PiNumber 5), .PiAssignment "dead" (.PiNumber 0)] [],
      .PiAssignment "dead2" (.PiNumber 0)] 0 initState .VNone initState (.VNumber 5)
     initState rfl rfl⟩

/-- A class whose `__init__` declares no non-receiver parameter and no
variadic parameter, called with one argument — more arguments than
declared parameters. -/
def tooManyArgsProgram : List PiStatement :=
  [.PiClassDef "C" [("__init__", ["self"], none, [.PiNone])],
   .PiFunctionCall (.PiVariable "C") [.PiNumber 1]]

/-- Counterexample to claim C1: calling the constructor of `C`, whose
`__init__(self)` declares zero non-receiver parameters and no variadic
parameter, with one argument does NOT raise an argument-arity error — the
call succeeds and returns the newly constructed object (the constructor
branch of `_evaluate_function_call` has no surplus-argument check). -/
theorem C1_constructor_surplus_args_accepted :
    (evaluate 40 tooManyArgsProgram 0 initState).1 = .ok (.VObject 0) ∧
    (evaluate 40 tooManyArgsProgram 0 initState).2.objects.length = 1 :=
  ⟨rfl, rfl⟩

/-- Claim C1 (amended): for a class-constructor call whose class defines
`__init__`, supplying fewer arguments than the declared non-receiver
parameters is a fatal argument-arity error (a TypeError); but supplying
more arguments than the declared parameters is NOT an error: the
constructor branch performs no surplus-argument check (and no variadic
handling), so the call behaves exactly as if only the first
(number of declared non-receiver parameters) arguments had been
supplied, the surplus being silently ignored. -/
theorem C1_constructor_arity_amended :
    (∀ (f : Nat) (cname : String) (methods : List (String × FuncDef × Nat))
       (fd : FuncDef) (cenv : Nat) (args : List Value) (s : State),
       assocLookup methods "__init__" = some (fd, cenv) →
       args.length < fd.argNames.tail.length →
       ∃ msg s', callValue (f + 1) (.VClassDef cname methods) args s
         = (.error (.ETypeError msg), s')) ∧
    (∀ (f : Nat) (cname : String) (methods : List (String × FuncDef × Nat))
       (fd : FuncDef) (cenv : Nat) (args : List Value) (s : State),
       assocLookup methods "__init__" = some (fd, cenv) →
       callValue (f + 1) (.VClassDef cname methods) args s
         = callValue (f + 1) (.VClassDef cname methods)
             (args.take fd.argNames.tail.length) s) := by
  constructor
  · intro f cname methods fd cenv args s hinit harity
    obtain ⟨nm, argNames, va, bd⟩ := fd
    cases argNames with
    | nil => simp at harity
    | cons a0 rest =>
      simp only [List.tail_cons] at harity
      obtain ⟨msg, s', hb⟩ := bindArgs_missing rest args
        "Argument manquant pour __init__: "
        ((State.newObject s cname methods).2.newFrame (some cenv)).1
        (((State.newObject s cname methods).2.newFrame (some cenv)).2.insertVar
           ((State.newObject s cname methods).2.newFrame (some cenv)).1 a0
           (.VObject (State.newObject s cname methods).1)) harity
      refine ⟨msg, s', ?_⟩
      simp only [callValue, hinit, List.tail_cons]
      rw [hb]
  · intro f cname methods fd cenv args s hinit
    obtain ⟨nm, argNames, va, bd⟩ := fd
    cases argNames with
    | nil =>
      simp only [callValue, hinit, List.tail_cons, List.tail_nil, List.length_nil,
        List.take_zero, bindArgs]
    | cons a0 rest =>
      simp only [callValue, hinit, List.tail_cons]
      rw [bindArgs_take rest args]

/-- Witness for C1 (amended): with `__init__(self, v)` and zero supplied
arguments the constructor call is a TypeError; and with `__init__(self)`
the calls with arguments `[1, 2]` and with no arguments coincide. -/
theorem C1_constructor_arity_amended_witness :
    (∃ msg s', callValue 11
        (.VClassDef "C" [("__init__", ⟨"__init__", ["self", "v"], none, []⟩, 0)]) []
        initState = (.error (.ETypeError msg), s')) ∧
    callValue 11 (.VClassDef "C" [("__init__", ⟨"__init__", ["self"], none, []⟩, 0)])
        [.VNumber 1, .VNumber 2] initState
      = callValue 11 (.VClassDef "C" [("__init__", ⟨"__init__", ["self"], none, []⟩, 0)])
        [] initState :=
  ⟨C1_constructor_arity_amended.1 10 "C"
     [("__init__", ⟨"__init__", ["self", "v"], none, []⟩, 0)]
     ⟨"__init__", ["self", "v"], none, []⟩ 0 [] initState rfl (by decide),
   C1_constructor_arity_amended.2 10 "C"
     [("__init__", ⟨"__init__", ["self"], none, []⟩, 0)]
     ⟨"__init__", ["self"], none, []⟩ 0 [.VNumber 1, .VNumber 2] initState rfl⟩

end Pithon
